import Mathlib

/-!
Shallow embedding of `yellowbrick/features/base.py`: the feature-visualizer
base classes.  The module's decision logic is

  * `MultiFeatureVisualizer.fit` -- lazy feature-name resolution,
  * `DataVisualizer.__init__` -- validation of the `target_type` string,
  * `DataVisualizer._determine_target_color_type` -- the target-type state machine,
  * `DataVisualizer.fit` -- class derivation, the class-count consistency
    warning, and color assignment per resolved target type.

Label vectors are embedded as `List Int` (a numeric 1-d array), matrices `X`
as either a dataframe carrying column names or a plain array carrying only a
column count (the code touches nothing else of `X`).  Exceptions are
`Except.error`; warnings emitted by `warnings.warn` are returned alongside the
updated instance state.  The color-resolution collaborator `resolve_colors`
is a function parameter, per its contract it returns a sequence of the
requested length.
-/

/-- The `TargetType` enum of `base.py` (values "auto", "single", "discrete",
"continuous"). -/
inductive TargetType where
  | AUTO
  | SINGLE
  | DISCRETE
  | CONTINUOUS
deriving DecidableEq

/-- `TargetType(target_type)`: Python enum lookup by value; `none` models the
`ValueError` raised for an unrecognized string. -/
def TargetType.ofString (s : String) : Option TargetType :=
  if s = "auto" then some TargetType.AUTO
  else if s = "single" then some TargetType.SINGLE
  else if s = "discrete" then some TargetType.DISCRETE
  else if s = "continuous" then some TargetType.CONTINUOUS
  else none

/-- A feature label: a dataframe column name or a positional index produced
by `np.arange`. -/
inductive FeatLabel where
  | name (s : String)
  | idx (n : Nat)
deriving DecidableEq

/-- The part of a dataframe the module reads: its column names, in order. -/
structure DataFrame where
  columns : List String
deriving DecidableEq

/-- Input matrix `X`: a dataframe (`is_dataframe X` true) or a plain
2-d array, of which only the number of columns (`X.shape[1]`) is read. -/
inductive XInput where
  | frame (df : DataFrame)
  | array (ncols : Nat)
deriving DecidableEq

/-- `MultiFeatureVisualizer.fit`, lines 106-127: if `features_` is `None`,
take the dataframe columns, else `np.arange(0, ncols)`; a non-`None`
`features_` is left untouched. -/
def resolveFeatures (features_ : Option (List FeatLabel)) (X : XInput) : List FeatLabel :=
  match features_ with
  | some fs => fs
  | none =>
    match X with
    | XInput.frame df => df.columns.map FeatLabel.name
    | XInput.array ncols => (List.range ncols).map FeatLabel.idx

/-- The `features_` field after `MultiFeatureVisualizer.fit` returns. -/
def multiFeatureFit (features_ : Option (List FeatLabel)) (X : XInput) :
    Option (List FeatLabel) :=
  some (resolveFeatures features_ X)

/-- Sorted insertion of a value into a sorted duplicate-free list, skipping
values already present. -/
def insertUniqueSorted (x : Int) : List Int → List Int
  | [] => [x]
  | y :: ys =>
    if x < y then x :: y :: ys
    else if x = y then y :: ys
    else y :: insertUniqueSorted x ys

/-- `np.unique(y)`: the distinct values of `y`, sorted ascending. -/
def npUnique (ys : List Int) : List Int :=
  ys.foldr insertUniqueSorted []

/-- `len(np.unique(y))`: the number of distinct values in `y`. -/
def distinctCount (ys : List Int) : Nat :=
  (npUnique ys).length

/-- `DataVisualizer._determine_target_color_type`, lines 285-311: `None`
target gives SINGLE; AUTO inspects the distinct-value count with threshold
10; an explicit type is taken as-is; a residual AUTO raises
`YellowbrickValueError`. -/
def determineTargetColorType (target_type : TargetType) (y : Option (List Int)) :
    Except String TargetType :=
  let t : TargetType :=
    match y with
    | none => TargetType.SINGLE
    | some ys =>
      if target_type = TargetType.AUTO then
        if distinctCount ys < 10 then TargetType.DISCRETE else TargetType.CONTINUOUS
      else target_type
  if t = TargetType.AUTO then
    Except.error "could not determine target color type"
  else
    Except.ok t

/-- The `_colors` attribute: the single color string, the class-to-color
dict, or the continuous colormap (identified by the colormap hint). -/
inductive Colors where
  | single (c : String)
  | mapping (m : List (String × String))
  | cmap (cm : Option String)
deriving DecidableEq

/-- One Python dict insertion: an existing key keeps its position and gets
the new value; a new key is appended. -/
def pyDictInsert (k : String) (v : String) :
    List (String × String) → List (String × String)
  | [] => [(k, v)]
  | p :: rest => if p.1 = k then (k, v) :: rest else p :: pyDictInsert k v rest

/-- `dict(zip(ks, vs))`: pairs inserted left to right with Python dict
semantics (first occurrence keeps its position, last value wins). -/
def pyDictOfZip (ks : List String) (vs : List String) : List (String × String) :=
  (List.zip ks vs).foldl (fun d p => pyDictInsert p.1 p.2 d) []

/-- `np.asarray(y).min()`: `ValueError` on an empty array. -/
def npMin : List Int → Except String Int
  | [] => Except.error "zero-size array to reduction operation minimum"
  | x :: xs => Except.ok (xs.foldl min x)

/-- `np.asarray(y).max()`: `ValueError` on an empty array. -/
def npMax : List Int → Except String Int
  | [] => Except.error "zero-size array to reduction operation maximum"
  | x :: xs => Except.ok (xs.foldl max x)

/-- The instance fields of a `DataVisualizer` that `base.py` reads or
writes.  `target_color_type`, `colors_` and `range_` embed the Python
attributes `_target_color_type`, `_colors` and `range_`, unset (`none`)
until `fit` assigns them. -/
structure DataVisualizer where
  features_ : Option (List FeatLabel)
  classes_ : Option (List String)
  color : Option (List String)
  colormap : Option String
  target_type : TargetType
  target_color_type : Option TargetType
  colors_ : Option Colors
  range_ : Option (Int × Int)
deriving DecidableEq

/-- `DataVisualizer.__init__`, lines 203-221: store the parameters and
validate the `target_type` string, raising `YellowbrickValueError` on an
unrecognized value. -/
def DataVisualizer.make (features_ : Option (List FeatLabel))
    (classes_ : Option (List String)) (color : Option (List String))
    (colormap : Option String) (target_type : String) :
    Except String DataVisualizer :=
  match TargetType.ofString target_type with
  | some tt =>
    Except.ok
      { features_ := features_
        classes_ := classes_
        color := color
        colormap := colormap
        target_type := tt
        target_color_type := none
        colors_ := none
        range_ := none }
  | none => Except.error (String.append "unknown target color type " target_type)

/-- Lines 254-257: the class list used in the DISCRETE branch -- derived
from `np.unique(y)` and stringified when `classes_` is `None`, otherwise
the stored list as-is. -/
def resolveClasses (classes_ : Option (List String)) (ys : List Int) : List String :=
  match classes_ with
  | none => (npUnique ys).map (fun label => toString label)
  | some cs => cs

/-- `DataVisualizer.fit`, lines 223-283.  `resolve_colors` is the external
color-resolution collaborator.  Returns the updated instance (`fit` returns
`self`) together with the list of warnings emitted, or the exception
raised. -/
def DataVisualizer.fit
    (resolve_colors : Nat → Option String → Option (List String) → List String)
    (self : DataVisualizer) (X : XInput) (y : Option (List Int)) :
    Except String (DataVisualizer × List String) :=
  match determineTargetColorType self.target_type y with
  | Except.error e => Except.error e
  | Except.ok tct =>
    let self2 : DataVisualizer :=
      { self with
          features_ := multiFeatureFit self.features_ X
          target_color_type := some tct }
    match tct with
    | TargetType.SINGLE =>
      Except.ok ({ self2 with colors_ := some (Colors.single "b") }, [])
    | TargetType.DISCRETE =>
      let ys := y.getD []
      let classes := resolveClasses self.classes_ ys
      let warns :=
        if classes.length ≠ distinctCount ys then
          ["Number of unique target is not equal to classes"]
        else []
      let color_values := resolve_colors classes.length self.colormap self.color
      Except.ok
        ({ self2 with
            classes_ := some classes
            colors_ := some (Colors.mapping (pyDictOfZip classes color_values)) },
          warns)
    | TargetType.CONTINUOUS =>
      let ys := y.getD []
      match npMin ys, npMax ys with
      | Except.ok lo, Except.ok hi =>
        Except.ok
          ({ self2 with
              range_ := some (lo, hi)
              colors_ := some (Colors.cmap self.colormap) },
            [])
      | _, _ => Except.error "zero-size array to reduction operation"
    | TargetType.AUTO =>
      Except.error "unknown target color type"

/-- A concrete color-resolution collaborator honouring the contract: exactly
`n` colors, here an indexed sequence. -/
def rcDemo (n : Nat) (_colormap : Option String) (_color : Option (List String)) :
    List String :=
  (List.range n).map (fun i => String.append "c" (toString i))

/-- A fresh `DataVisualizer` as `__init__` leaves it, with the given class
list and (already validated) target type. -/
def demoDV (cls : Option (List String)) (tt : TargetType) : DataVisualizer :=
  { features_ := none
    classes_ := cls
    color := none
    colormap := none
    target_type := tt
    target_color_type := none
    colors_ := none
    range_ := none }

/-! ## Characterization of `npUnique` -/

theorem mem_insertUniqueSorted (x v : Int) (l : List Int) :
    v ∈ insertUniqueSorted x l ↔ v = x ∨ v ∈ l := by
  induction l with
  | nil => simp [insertUniqueSorted]
  | cons y ys ih =>
    by_cases hlt : x < y
    · simp [insertUniqueSorted, hlt]
    · by_cases heq : x = y
      · subst heq
        rw [insertUniqueSorted, if_neg hlt, if_pos rfl]
        constructor
        · exact fun h => Or.inr h
        · rintro (h | h)
          · exact h ▸ List.mem_cons_self x ys
          · exact h
      · simp [insertUniqueSorted, hlt, heq, ih]
        tauto

theorem sorted_insertUniqueSorted (x : Int) (l : List Int)
    (h : List.Sorted (fun a b => a < b) l) :
    List.Sorted (fun a b => a < b) (insertUniqueSorted x l) := by
  induction l with
  | nil => simp [insertUniqueSorted]
  | cons y ys ih =>
    rw [List.sorted_cons] at h
    by_cases hlt : x < y
    · rw [insertUniqueSorted]
      rw [if_pos hlt, List.sorted_cons]
      refine ⟨?_, ?_⟩
      · intro b hb
        rcases List.mem_cons.mp hb with hb | hb
        · exact hb ▸ hlt
        · exact lt_trans hlt (h.1 b hb)
      · rw [List.sorted_cons]
        exact h
    · by_cases heq : x = y
      · rw [insertUniqueSorted, if_neg hlt, if_pos heq, List.sorted_cons]
        exact h
      · rw [insertUniqueSorted, if_neg hlt, if_neg heq, List.sorted_cons]
      
        refine ⟨?_, ih h.2⟩
        intro b hb
        rcases (mem_insertUniqueSorted x b ys).mp hb with hb | hb
        · subst hb
          rcases lt_trichotomy b y with h3 | h3 | h3
          · exact absurd h3 hlt
          · exact absurd h3 heq
          · exact h3
        · exact h.1 b hb

theorem npUnique_sorted (ys : List Int) :
    List.Sorted (fun a b => a < b) (npUnique ys) := by
  induction ys with
  | nil => simp [npUnique]
  | cons y t ih => exact sorted_insertUniqueSorted y _ ih

theorem mem_npUnique (v : Int) (ys : List Int) : v ∈ npUnique ys ↔ v ∈ ys := by
  induction ys with
  | nil => simp [npUnique]
  | cons y t ih =>
    show v ∈ insertUniqueSorted y (npUnique t) ↔ _
    rw [mem_insertUniqueSorted, ih]
    simp

theorem npUnique_nodup (ys : List Int) : (npUnique ys).Nodup :=
  (npUnique_sorted ys).nodup

/-- `distinctCount` really is the number of distinct values: the length of
the deduplicated list. -/
theorem distinctCount_eq_dedup_length (ys : List Int) :
    distinctCount ys = ys.dedup.length := by
  refine List.Perm.length_eq ?_
  refine (List.perm_ext_iff_of_nodup (npUnique_nodup ys) ys.nodup_dedup).mpr ?_
  intro v
  rw [mem_npUnique, List.mem_dedup]

/-! ## Target type determination (lines 285-311) -/

/-- C1: for non-null `y` with requested type AUTO, the resolved target type
is DISCRETE when the number of distinct values of `y` is strictly below 10
and CONTINUOUS when it is 10 or more. -/
theorem auto_threshold_resolution (ys : List Int) :
    (distinctCount ys < 10 →
      determineTargetColorType TargetType.AUTO (some ys) =
        Except.ok TargetType.DISCRETE) ∧
    (10 ≤ distinctCount ys →
      determineTargetColorType TargetType.AUTO (some ys) =
        Except.ok TargetType.CONTINUOUS) := by
  constructor
  · intro h
    unfold determineTargetColorType
    simp only [if_pos rfl, if_pos h]
    rfl
  · intro h
    unfold determineTargetColorType
    simp only [if_pos rfl, if_neg (Nat.not_lt.mpr h)]
    rfl

/-- Witness for `auto_threshold_resolution`: 3 distinct values resolve to
DISCRETE, 10 distinct values resolve to CONTINUOUS. -/
theorem auto_threshold_resolution_witness :
    determineTargetColorType TargetType.AUTO (some [0, 1, 2]) =
      Except.ok TargetType.DISCRETE ∧
    determineTargetColorType TargetType.AUTO (some [0, 1, 2, 3, 4, 5, 6, 7, 8, 9]) =
      Except.ok TargetType.CONTINUOUS :=
  ⟨(auto_threshold_resolution [0, 1, 2]).1 (by decide),
   (auto_threshold_resolution [0, 1, 2, 3, 4, 5, 6, 7, 8, 9]).2 (by decide)⟩

/-- C2: with an absent label vector (`y = None`), the resolved target type is
SINGLE, whatever the requested target type. -/
theorem none_resolves_single (tt : TargetType) :
    determineTargetColorType tt none = Except.ok TargetType.SINGLE := by
  rfl

/-- C3: a requested target type other than AUTO is resolved to itself for
every non-null label vector, with no inspection of the distinct-value
count of `y`. -/
theorem explicit_request_wins (tt : TargetType) (ys : List Int)
    (h : tt ≠ TargetType.AUTO) :
    determineTargetColorType tt (some ys) = Except.ok tt := by
  cases tt with
  | AUTO => exact absurd rfl h
  | SINGLE => rfl
  | DISCRETE => rfl
  | CONTINUOUS => rfl

/-- Witness for `explicit_request_wins`: a vector with 11 distinct values
still resolves to SINGLE when SINGLE was requested, and to DISCRETE when
DISCRETE was requested. -/
theorem explicit_request_wins_witness :
    determineTargetColorType TargetType.SINGLE
        (some [0, 1, 2, 3, 4, 5, 6, 7, 8, 9, 10]) =
      Except.ok TargetType.SINGLE ∧
    determineTargetColorType TargetType.DISCRETE
        (some [0, 1, 2, 3, 4, 5, 6, 7, 8, 9, 10]) =
      Except.ok TargetType.DISCRETE :=
  ⟨explicit_request_wins TargetType.SINGLE [0, 1, 2, 3, 4, 5, 6, 7, 8, 9, 10]
      (by decide),
   explicit_request_wins TargetType.DISCRETE [0, 1, 2, 3, 4, 5, 6, 7, 8, 9, 10]
      (by decide)⟩

/-! ## Construction-time validation (lines 203-221) -/

/-- C7: constructing with a `target_type` string outside the four recognized
values raises `YellowbrickValueError` at construction (no `fit` involved),
and each of the four recognized strings constructs successfully. -/
theorem ctor_target_type_validation (features_ : Option (List FeatLabel))
    (classes_ : Option (List String)) (color : Option (List String))
    (colormap : Option String) (s : String) :
    (s ∉ ["auto", "single", "discrete", "continuous"] →
      ∃ e, DataVisualizer.make features_ classes_ color colormap s =
        Except.error e) ∧
    (s ∈ ["auto", "single", "discrete", "continuous"] →
      ∃ dv, DataVisualizer.make features_ classes_ color colormap s =
        Except.ok dv) := by
  constructor
  · intro h
    simp only [List.mem_cons, List.not_mem_nil, or_false, not_or] at h
    obtain ⟨h1, h2, h3, h4⟩ := h
    refine ⟨String.append "unknown target color type " s, ?_⟩
    unfold DataVisualizer.make TargetType.ofString
    rw [if_neg h1, if_neg h2, if_neg h3, if_neg h4]
  · intro h
    simp only [List.mem_cons, List.not_mem_nil, or_false] at h
    unfold DataVisualizer.make TargetType.ofString
    rcases h with h | h | h | h
    all_goals subst h
    · exact ⟨_, rfl⟩
    · exact ⟨_, rfl⟩
    · exact ⟨_, rfl⟩
    · exact ⟨_, rfl⟩

/-- Witness for `ctor_target_type_validation`: the string "bogus" is
rejected with an error, the string "discrete" is accepted. -/
theorem ctor_target_type_validation_witness :
    (∃ e, DataVisualizer.make none none none none "bogus" = Except.error e) ∧
    (∃ dv, DataVisualizer.make none none none none "discrete" = Except.ok dv) :=
  ⟨(ctor_target_type_validation none none none none "bogus").1 (by decide),
   (ctor_target_type_validation none none none none "discrete").2 (by decide)⟩

/-! ## Feature name resolution (lines 106-127) -/

/-- C9: `MultiFeatureVisualizer.fit` leaves an already non-null `features_`
unchanged; with `features_` null it takes the dataframe column names in
order, or the positional indices `0 .. ncols-1`; and a second fit with any
other input does not re-derive the already resolved value. -/
theorem feature_name_resolution (features_ : Option (List FeatLabel))
    (X X2 : XInput) :
    (∀ fs, features_ = some fs → multiFeatureFit features_ X = some fs) ∧
    (features_ = none → ∀ df, X = XInput.frame df →
      multiFeatureFit features_ X = some (df.columns.map FeatLabel.name)) ∧
    (features_ = none → ∀ ncols, X = XInput.array ncols →
      multiFeatureFit features_ X = some ((List.range ncols).map FeatLabel.idx)) ∧
    multiFeatureFit (multiFeatureFit features_ X) X2 = multiFeatureFit features_ X := by
  refine ⟨?_, ?_, ?_, ?_⟩
  · intro fs h
    subst h
    rfl
  · intro h df hX
    subst h
    subst hX
    rfl
  · intro h ncols hX
    subst h
    subst hX
    rfl
  · rfl

/-- Witness for `feature_name_resolution`: named columns are taken in order,
a positional 4-column input yields indices 0-3, an explicit feature list is
kept, and a second fit with a different shape leaves the resolution as is. -/
theorem feature_name_resolution_witness :
    multiFeatureFit none (XInput.frame { columns := ["age", "income"] }) =
      some [FeatLabel.name "age", FeatLabel.name "income"] ∧
    multiFeatureFit none (XInput.array 4) =
      some [FeatLabel.idx 0, FeatLabel.idx 1, FeatLabel.idx 2, FeatLabel.idx 3] ∧
    multiFeatureFit (some [FeatLabel.name "a"]) (XInput.array 7) =
      some [FeatLabel.name "a"] ∧
    multiFeatureFit (multiFeatureFit none (XInput.array 4))
        (XInput.frame { columns := ["other"] }) =
      multiFeatureFit none (XInput.array 4) :=
  ⟨(feature_name_resolution none (XInput.frame { columns := ["age", "income"] })
      (XInput.array 0)).2.1 rfl _ rfl,
   (feature_name_resolution none (XInput.array 4) (XInput.array 0)).2.2.1 rfl 4 rfl,
   (feature_name_resolution (some [FeatLabel.name "a"]) (XInput.array 7)
      (XInput.array 0)).1 _ rfl,
   (feature_name_resolution none (XInput.array 4)
      (XInput.frame { columns := ["other"] })).2.2.2⟩

/-! ## Minimum and maximum of a label vector -/

theorem foldl_min_le_init (xs : List Int) (x : Int) : xs.foldl min x ≤ x := by
  induction xs generalizing x with
  | nil => exact le_refl x
  | cons a as ih => exact le_trans (ih (min x a)) (min_le_left x a)

theorem foldl_min_le_mem (xs : List Int) (x v : Int) (hv : v ∈ xs) :
    xs.foldl min x ≤ v := by
  induction xs generalizing x with
  | nil => cases hv
  | cons a as ih =>
    rcases List.mem_cons.mp hv with h | h
    · subst h
      exact le_trans (foldl_min_le_init as (min x v)) (min_le_right x v)
    · exact ih (min x a) h

theorem foldl_min_mem (xs : List Int) (x : Int) : xs.foldl min x ∈ x :: xs := by
  induction xs generalizing x with
  | nil => exact List.mem_cons_self x []
  | cons a as ih =>
    have h := ih (min x a)
    rcases List.mem_cons.mp h with h | h
    · rcases min_choice x a with hm | hm
      · exact List.mem_cons.mpr (Or.inl (h.trans hm))
      · exact List.mem_cons.mpr (Or.inr (List.mem_cons.mpr (Or.inl (h.trans hm))))
    · exact List.mem_cons.mpr (Or.inr (List.mem_cons.mpr (Or.inr h)))

theorem init_le_foldl_max (xs : List Int) (x : Int) : x ≤ xs.foldl max x := by
  induction xs generalizing x with
  | nil => exact le_refl x
  | cons a as ih => exact le_trans (le_max_left x a) (ih (max x a))

theorem mem_le_foldl_max (xs : List Int) (x v : Int) (hv : v ∈ xs) :
    v ≤ xs.foldl max x := by
  induction xs generalizing x with
  | nil => cases hv
  | cons a as ih =>
    rcases List.mem_cons.mp hv with h | h
    · subst h
      exact le_trans (le_max_right x v) (init_le_foldl_max as (max x v))
    · exact ih (max x a) h

theorem foldl_max_mem (xs : List Int) (x : Int) : xs.foldl max x ∈ x :: xs := by
  induction xs generalizing x with
  | nil => exact List.mem_cons_self x []
  | cons a as ih =>
    have h := ih (max x a)
    rcases List.mem_cons.mp h with h | h
    · rcases max_choice x a with hm | hm
      · exact List.mem_cons.mpr (Or.inl (h.trans hm))
      · exact List.mem_cons.mpr (Or.inr (List.mem_cons.mpr (Or.inl (h.trans hm))))
    · exact List.mem_cons.mpr (Or.inr (List.mem_cons.mpr (Or.inr h)))

/-! ## Python dict construction on distinct keys -/

theorem pyDictInsert_of_not_mem (k v : String) (d : List (String × String))
    (h : k ∉ d.map Prod.fst) : pyDictInsert k v d = d ++ [(k, v)] := by
  induction d with
  | nil => rfl
  | cons p rest ih =>
    rw [List.map_cons, List.mem_cons, not_or] at h
    rw [pyDictInsert, if_neg (fun hpk => h.1 hpk.symm), ih h.2, List.cons_append]

theorem pyDictFoldl_nodup (ps : List (String × String)) :
    ∀ acc : List (String × String), (ps.map Prod.fst).Nodup →
    (∀ k ∈ ps.map Prod.fst, k ∉ acc.map Prod.fst) →
    ps.foldl (fun d p => pyDictInsert p.1 p.2 d) acc = acc ++ ps := by
  induction ps with
  | nil =>
    intro acc _ _
    simp
  | cons p rest ih =>
    intro acc h1 h2
    rw [List.map_cons, List.nodup_cons] at h1
    rw [List.foldl_cons]
    have hins : pyDictInsert p.1 p.2 acc = acc ++ [p] := by
      rw [pyDictInsert_of_not_mem p.1 p.2 acc
        (h2 p.1 (by rw [List.map_cons]; exact List.mem_cons_self _ _))]
    have h2r : ∀ k ∈ rest.map Prod.fst, k ∉ (acc ++ [p]).map Prod.fst := by
      intro k hk
      rw [List.map_append, List.mem_append, not_or]
      refine ⟨h2 k (by rw [List.map_cons]; exact List.mem_cons_of_mem _ hk), ?_⟩
      intro hkp
      rw [List.map_cons, List.map_nil, List.mem_singleton] at hkp
      exact h1.1 (hkp ▸ hk)
    rw [hins, ih (acc ++ [p]) h1.2 h2r, List.append_assoc]
    rfl

/-- `dict(zip(ks, vs))` on a duplicate-free key list of the same length as
the value list is exactly the zip of the two lists, in order. -/
theorem pyDictOfZip_nodup (ks vs : List String) (hnd : ks.Nodup)
    (hlen : vs.length = ks.length) :
    pyDictOfZip ks vs = ks.zip vs := by
  unfold pyDictOfZip
  rw [pyDictFoldl_nodup (ks.zip vs) [] ?_ ?_]
  · rw [List.nil_append]
  · rw [List.map_fst_zip ks vs (le_of_eq hlen.symm)]
    exact hnd
  · intro k _ hk
    rw [List.map_nil] at hk
    cases hk

/-! ## `DataVisualizer.fit` (lines 223-283) -/

/-- C4: a fit resolving to DISCRETE with a stored class list whose length
differs from the number of distinct values of `y` emits the consistency
warning, raises nothing, keeps the supplied list as the class list, and
completes returning the instance. -/
theorem class_mismatch_warns
    (rc : Nat → Option String → Option (List String) → List String)
    (self : DataVisualizer) (X : XInput) (ys : List Int) (cs : List String)
    (hc : self.classes_ = some cs)
    (ht : determineTargetColorType self.target_type (some ys) =
      Except.ok TargetType.DISCRETE)
    (hm : cs.length ≠ distinctCount ys) :
    ∃ result : DataVisualizer × List String,
      DataVisualizer.fit rc self X (some ys) = Except.ok result ∧
      result.1.classes_ = some cs ∧
      result.2 = ["Number of unique target is not equal to classes"] := by
  unfold DataVisualizer.fit
  rw [ht]
  simp only [resolveClasses, hc, Option.getD]
  rw [if_pos hm]
  exact ⟨_, rfl, rfl, rfl⟩

/-- Witness for `class_mismatch_warns`: two supplied classes against three
distinct label values warn and keep the supplied list. -/
theorem class_mismatch_warns_witness :
    ∃ result : DataVisualizer × List String,
      DataVisualizer.fit rcDemo (demoDV (some ["x", "y"]) TargetType.DISCRETE)
        (XInput.array 2) (some [0, 1, 2]) = Except.ok result ∧
      result.1.classes_ = some ["x", "y"] ∧
      result.2 = ["Number of unique target is not equal to classes"] :=
  class_mismatch_warns rcDemo (demoDV (some ["x", "y"]) TargetType.DISCRETE)
    (XInput.array 2) [0, 1, 2] ["x", "y"] rfl rfl (by decide)

/-- C10: a fit resolving to DISCRETE that enters with no stored class list
derives the classes from `np.unique(y)` and therefore never emits the
class-count consistency warning. -/
theorem no_warning_when_classes_derived
    (rc : Nat → Option String → Option (List String) → List String)
    (self : DataVisualizer) (X : XInput) (ys : List Int)
    (hc : self.classes_ = none)
    (ht : determineTargetColorType self.target_type (some ys) =
      Except.ok TargetType.DISCRETE) :
    ∃ dv : DataVisualizer,
      DataVisualizer.fit rc self X (some ys) = Except.ok (dv, []) := by
  unfold DataVisualizer.fit
  rw [ht]
  simp only [resolveClasses, hc, Option.getD]
  have hlen : ((npUnique ys).map (fun label => toString label)).length
      = distinctCount ys := by
    rw [List.length_map]
    rfl
  rw [if_neg (by rw [hlen]; exact fun h => h rfl)]
  exact ⟨_, rfl⟩

/-- Witness for `no_warning_when_classes_derived`: AUTO fit on labels with
two distinct values, no classes supplied, finishes with no warning. -/
theorem no_warning_when_classes_derived_witness :
    ∃ dv : DataVisualizer,
      DataVisualizer.fit rcDemo (demoDV none TargetType.AUTO) (XInput.array 1)
        (some [5, 5, 7]) = Except.ok (dv, []) :=
  no_warning_when_classes_derived rcDemo (demoDV none TargetType.AUTO)
    (XInput.array 1) [5, 5, 7] rfl rfl

/-- C6 counterexample: for `y = [3, 1]` (encounter order 3 then 1) with no
supplied classes, the derived class list is `["1", "3"]` -- ascending value
order -- and not the first-encounter order `["3", "1"]`. -/
theorem derived_classes_not_encounter_order :
    DataVisualizer.fit rcDemo (demoDV none TargetType.AUTO) (XInput.array 1)
        (some [3, 1]) =
      Except.ok
        ({ features_ := some [FeatLabel.idx 0]
           classes_ := some ["1", "3"]
           color := none
           colormap := none
           target_type := TargetType.AUTO
           target_color_type := some TargetType.DISCRETE
           colors_ := some (Colors.mapping [("1", "c0"), ("3", "c1")])
           range_ := none }, []) ∧
    (["1", "3"] : List String) ≠ ["3", "1"] :=
  ⟨rfl, by decide⟩

/-- C6 (amended): a fit resolving to DISCRETE with no stored class list
derives the classes as the distinct values of `y` in ascending sorted order
(not first-encounter order), each converted to its string representation;
`npUnique ys` is strictly sorted and holds exactly the values of `ys`. -/
theorem derived_classes_sorted_strings
    (rc : Nat → Option String → Option (List String) → List String)
    (self : DataVisualizer) (X : XInput) (ys : List Int)
    (hc : self.classes_ = none)
    (ht : determineTargetColorType self.target_type (some ys) =
      Except.ok TargetType.DISCRETE) :
    ∃ result : DataVisualizer × List String,
      DataVisualizer.fit rc self X (some ys) = Except.ok result ∧
      result.1.classes_ =
        some ((npUnique ys).map (fun label => toString label)) ∧
      List.Sorted (fun a b => a < b) (npUnique ys) ∧
      (∀ v : Int, v ∈ npUnique ys ↔ v ∈ ys) := by
  unfold DataVisualizer.fit
  rw [ht]
  simp only [resolveClasses, hc, Option.getD]
  refine ⟨_, rfl, rfl, npUnique_sorted ys, fun v => mem_npUnique v ys⟩

/-- Witness for `derived_classes_sorted_strings`: labels `[3, 1]` derive the
class list `["1", "3"]`. -/
theorem derived_classes_sorted_strings_witness :
    ∃ result : DataVisualizer × List String,
      DataVisualizer.fit rcDemo (demoDV none TargetType.AUTO) (XInput.array 1)
        (some [3, 1]) = Except.ok result ∧
      result.1.classes_ =
        some ((npUnique [3, 1]).map (fun label => toString label)) ∧
      List.Sorted (fun a b => a < b) (npUnique [3, 1]) ∧
      (∀ v : Int, v ∈ npUnique [3, 1] ↔ v ∈ [3, 1]) :=
  derived_classes_sorted_strings rcDemo (demoDV none TargetType.AUTO)
    (XInput.array 1) [3, 1] rfl rfl

/-- C5 counterexample: with the duplicated class list `["a", "a"]` and a
2-color sequence from the collaborator, the Python dict collapses the
repeated key, so the mapping has 1 entry while `len(classes)` is 2, and the
first class position is bound to the second color, not the first. -/
theorem discrete_mapping_duplicate_collapse :
    DataVisualizer.fit rcDemo (demoDV (some ["a", "a"]) TargetType.DISCRETE)
        (XInput.array 2) (some [0, 1]) =
      Except.ok
        ({ features_ := some [FeatLabel.idx 0, FeatLabel.idx 1]
           classes_ := some ["a", "a"]
           color := none
           colormap := none
           target_type := TargetType.DISCRETE
           target_color_type := some TargetType.DISCRETE
           colors_ := some (Colors.mapping [("a", "c1")])
           range_ := none }, []) ∧
    rcDemo (["a", "a"] : List String).length none none = ["c0", "c1"] ∧
    ([("a", "c1")] : List (String × String)).length ≠
      (["a", "a"] : List String).length :=
  ⟨rfl, rfl, by decide⟩

/-- C5 (amended): a fit resolving to DISCRETE whose resolved class list is
duplicate-free, with the collaborator returning a color sequence of length
`len(classes)`, builds the color mapping as exactly the class list zipped
with the colors: its key list is the class list itself (no more, no fewer,
in order), its size is `len(classes)`, and each class is bound to the color
at the same position. -/
theorem discrete_color_mapping
    (rc : Nat → Option String → Option (List String) → List String)
    (self : DataVisualizer) (X : XInput) (ys : List Int)
    (ht : determineTargetColorType self.target_type (some ys) =
      Except.ok TargetType.DISCRETE)
    (hnd : (resolveClasses self.classes_ ys).Nodup)
    (hrc : (rc (resolveClasses self.classes_ ys).length self.colormap
        self.color).length = (resolveClasses self.classes_ ys).length) :
    ∃ result : DataVisualizer × List String,
      DataVisualizer.fit rc self X (some ys) = Except.ok result ∧
      result.1.classes_ = some (resolveClasses self.classes_ ys) ∧
      result.1.colors_ = some (Colors.mapping
        ((resolveClasses self.classes_ ys).zip
          (rc (resolveClasses self.classes_ ys).length self.colormap
            self.color))) ∧
      ((resolveClasses self.classes_ ys).zip
          (rc (resolveClasses self.classes_ ys).length self.colormap
            self.color)).map Prod.fst = resolveClasses self.classes_ ys ∧
      ((resolveClasses self.classes_ ys).zip
          (rc (resolveClasses self.classes_ ys).length self.colormap
            self.color)).length = (resolveClasses self.classes_ ys).length := by
  unfold DataVisualizer.fit
  rw [ht]
  simp only [Option.getD]
  rw [pyDictOfZip_nodup _ _ hnd hrc]
  refine ⟨_, rfl, rfl, rfl, ?_, ?_⟩
  · exact List.map_fst_zip _ _ (le_of_eq hrc.symm)
  · rw [List.length_zip, hrc, Nat.min_self]

/-- Witness for `discrete_color_mapping`: classes `["a", "b", "c"]` with a
3-color sequence yield the mapping binding each class in order to the color
in the same position. -/
theorem discrete_color_mapping_witness :
    ∃ result : DataVisualizer × List String,
      DataVisualizer.fit rcDemo (demoDV (some ["a", "b", "c"]) TargetType.DISCRETE)
        (XInput.array 2) (some [0, 1, 2]) = Except.ok result ∧
      result.1.classes_ =
        some (resolveClasses (some ["a", "b", "c"]) [0, 1, 2]) ∧
      result.1.colors_ = some (Colors.mapping
        ((resolveClasses (some ["a", "b", "c"]) [0, 1, 2]).zip
          (rcDemo (resolveClasses (some ["a", "b", "c"]) [0, 1, 2]).length
            none none))) ∧
      ((resolveClasses (some ["a", "b", "c"]) [0, 1, 2]).zip
          (rcDemo (resolveClasses (some ["a", "b", "c"]) [0, 1, 2]).length
            none none)).map Prod.fst =
        resolveClasses (some ["a", "b", "c"]) [0, 1, 2] ∧
      ((resolveClasses (some ["a", "b", "c"]) [0, 1, 2]).zip
          (rcDemo (resolveClasses (some ["a", "b", "c"]) [0, 1, 2]).length
            none none)).length =
        (resolveClasses (some ["a", "b", "c"]) [0, 1, 2]).length :=
  discrete_color_mapping rcDemo (demoDV (some ["a", "b", "c"]) TargetType.DISCRETE)
    (XInput.array 2) [0, 1, 2] rfl (by decide) rfl

/-- C8: a fit resolving to CONTINUOUS with a non-empty label vector stores
`range_` as the pair of the minimum and the maximum of the labels. -/
theorem continuous_range_min_max
    (rc : Nat → Option String → Option (List String) → List String)
    (self : DataVisualizer) (X : XInput) (ys : List Int)
    (ht : determineTargetColorType self.target_type (some ys) =
      Except.ok TargetType.CONTINUOUS)
    (hne : ys ≠ []) :
    ∃ (result : DataVisualizer × List String) (lo hi : Int),
      DataVisualizer.fit rc self X (some ys) = Except.ok result ∧
      result.1.range_ = some (lo, hi) ∧
      lo ∈ ys ∧ (∀ v ∈ ys, lo ≤ v) ∧
      hi ∈ ys ∧ (∀ v ∈ ys, v ≤ hi) := by
  cases ys with
  | nil => exact absurd rfl hne
  | cons x xs =>
    unfold DataVisualizer.fit
    rw [ht]
    simp only [Option.getD, npMin, npMax]
    refine ⟨_, xs.foldl min x, xs.foldl max x, rfl, rfl, ?_, ?_, ?_, ?_⟩
    · exact foldl_min_mem xs x
    · intro v hv
      rcases List.mem_cons.mp hv with h | h
      · exact h ▸ foldl_min_le_init xs x
      · exact foldl_min_le_mem xs x v h
    · exact foldl_max_mem xs x
    · intro v hv
      rcases List.mem_cons.mp hv with h | h
      · exact h ▸ init_le_foldl_max xs x
      · exact mem_le_foldl_max xs x v h

/-- Witness for `continuous_range_min_max`: for `y = [1, 5, 3, 9, 2]` the
stored range is exactly `(1, 9)`. -/
theorem continuous_range_min_max_witness :
    (∃ (result : DataVisualizer × List String) (lo hi : Int),
      DataVisualizer.fit rcDemo (demoDV none TargetType.CONTINUOUS)
          (XInput.array 1) (some [1, 5, 3, 9, 2]) = Except.ok result ∧
      result.1.range_ = some (lo, hi) ∧
      lo ∈ [1, 5, 3, 9, 2] ∧ (∀ v ∈ ([1, 5, 3, 9, 2] : List Int), lo ≤ v) ∧
      hi ∈ [1, 5, 3, 9, 2] ∧ (∀ v ∈ ([1, 5, 3, 9, 2] : List Int), v ≤ hi)) ∧
    (∃ result : DataVisualizer × List String,
      DataVisualizer.fit rcDemo (demoDV none TargetType.CONTINUOUS)
          (XInput.array 1) (some [1, 5, 3, 9, 2]) = Except.ok result ∧
      result.1.range_ = some (1, 9)) :=
  ⟨continuous_range_min_max rcDemo (demoDV none TargetType.CONTINUOUS)
      (XInput.array 1) [1, 5, 3, 9, 2] rfl (by decide),
   ⟨_, rfl, rfl⟩⟩
